/-
Verification of the Superstore dashboard (superstore_dashboard.py).

The dashboard is a single linear pipeline: synthesize a table of order
records, filter it by date range / category / segment / state, and compute
a fixed family of aggregate views (KPIs, groupby breakdowns, geographic
top-10 lists, discount analysis, shipping analysis, CSV export).

This file gives a shallow embedding of that pipeline.  A table is a
`List Row`; pandas `groupby` is modelled as "take the distinct keys in
ascending order, and aggregate the fiber of every key"; `sort_values` is
modelled by insertion sort on the relevant column; `.head(10)` is
`List.take 10`.  Numeric columns are rationals; row counts are naturals.
The numpy seeded PRNG stream is modelled by a fixed deterministic word
function (`nprand`), standing in for the MT19937 stream that
`np.random.seed(42)` pins down: all the properties proved here are
independent of the particular stream values, except where a concrete
row of the generated table is exhibited.
-/
import Mathlib

set_option maxRecDepth 8192

namespace Superstore

/-! ## The synthetic dataset of `load_data` -/

/-- Model of the numpy PRNG stream after `np.random.seed(seed)`: word number
`n` of the seeded stream.  A fixed deterministic function standing in for
MT19937 (a library internal); the code only relies on the stream being a
deterministic function of the seed. -/
def nprand (seed n : Nat) : Nat :=
  (1103515245 * (seed + n) + 12345) % 4294967296

/-- The pandas date range 2014-01-01 to 2017-12-31 (daily) has 1461 entries;
a date is its day index `0 ≤ d < 1461` counted from 2014-01-01. -/
def numDates : Nat := 1461

/-- The year component of day index `d` (2016 is a leap year), as extracted
by the pandas year accessor on the Order_Date column. -/
def yearOfDay (d : Nat) : Nat :=
  if d < 365 then 2014 else if d < 730 then 2015 else if d < 1096 then 2016 else 2017

/-- Day-of-year (0-based) of day index `d` inside its calendar year. -/
def dayOfYear (d : Nat) : Nat :=
  if d < 365 then d else if d < 730 then d - 365 else if d < 1096 then d - 730 else d - 1096

/-- Month lengths of a year, leap or not. -/
def monthLengths (leap : Bool) : List Nat :=
  [31, if leap then 29 else 28, 31, 30, 31, 30, 31, 31, 30, 31, 30, 31]

/-- Walk the month lengths to locate a 0-based day-of-year; months are 1-based. -/
def monthOfDayAux : List Nat → Nat → Nat → Nat
  | [], _, m => m
  | len :: rest, d, m => if d < len then m else monthOfDayAux rest (d - len) (m + 1)

/-- The month component of day index `d`, as extracted by the pandas month
accessor on the Order_Date column. -/
def monthOfDay (d : Nat) : Nat :=
  monthOfDayAux (monthLengths (yearOfDay d == 2016)) (dayOfYear d) 1

/-- The option pools of the `np.random.choice` calls in `load_data`. -/
def catOptions : List String := ["Furniture", "Office Supplies", "Technology"]

def subcatOptions : List String :=
  ["Chairs", "Tables", "Paper", "Binders", "Phones", "Accessories"]

def segOptions : List String := ["Consumer", "Corporate", "Home Office"]

def stateOptions : List String :=
  ["California", "New York", "Texas", "Florida", "Pennsylvania"]

def cityOptions : List String :=
  ["Los Angeles", "New York City", "Houston", "Philadelphia", "San Francisco"]

def shipOptions : List String :=
  ["Standard Class", "Second Class", "First Class", "Same Day"]

def discountOptions : List ℚ := [0, 1/10, 2/10, 3/10, 4/10, 5/10]

/-- Model of rounding a float column to two decimal places, as done by the
pandas round method (half-up model of numpy rounding). -/
def roundTo2 (q : ℚ) : ℚ := ((⌊q * 100 + 1/2⌋ : ℤ) : ℚ) / 100

/-- One order record, with the eleven generated columns and the three
derived columns (`Year`, `Month`, `Profit_Margin`) added at the end of
`load_data`.  `order_date` is the day index from 2014-01-01. -/
structure Row where
  order_date : Nat
  category : String
  sub_category : String
  segment : String
  state : String
  city : String
  sales : ℚ
  quantity : Nat
  discount : ℚ
  profit : ℚ
  ship_mode : String
  year : Nat
  month : Nat
  profit_margin : ℚ
deriving DecidableEq

/-- Row `i` of the synthetic table: each generated column is one draw of the
seeded stream (column `j` uses stream words `j*10000 + i`, the columns being
drawn one after another, 10000 words each).  `Sales` is uniform on
[10, 5000), `Profit` uniform on [-1000, 2000), `Quantity` is
`np.random.randint(1, 10)`, and the three derived columns follow lines
69-71 of the source. -/
def mkRow (seed i : Nat) : Row :=
  let d := nprand seed i % numDates
  let sales : ℚ := 10 + (nprand seed (60000 + i) % 4990 : Nat)
  let profit : ℚ := (nprand seed (90000 + i) % 3000 : Nat) - 1000
  { order_date := d
    category := catOptions.getD (nprand seed (10000 + i) % 3) ""
    sub_category := subcatOptions.getD (nprand seed (20000 + i) % 6) ""
    segment := segOptions.getD (nprand seed (30000 + i) % 3) ""
    state := stateOptions.getD (nprand seed (40000 + i) % 5) ""
    city := cityOptions.getD (nprand seed (50000 + i) % 5) ""
    sales := sales
    quantity := 1 + nprand seed (70000 + i) % 9
    discount := discountOptions.getD (nprand seed (80000 + i) % 6) 0
    profit := profit
    ship_mode := shipOptions.getD (nprand seed (100000 + i) % 4) ""
    year := yearOfDay d
    month := monthOfDay d
    profit_margin := roundTo2 (profit / sales * 100) }

/-- The 10,000 synthetic rows generated from one seed. -/
def syntheticRows (seed : Nat) : List Row :=
  (List.range 10000).map (mkRow seed)

/-- Model of read_csv: split the file contents into lines and fields. -/
def parseCsv (s : String) : List (List String) :=
  (s.splitOn "\x0A").map (fun line => line.splitOn ",")

/-- The function `load_data`: reads the CSV file, then immediately overwrites the frame
with the synthetic table seeded at 42 (lines 47-73 of the source).  The
argument is the contents of `./DATASET/superstore_cleaned.csv`. -/
def load_data (csvFile : String) : List Row :=
  let _df := parseCsv csvFile
  syntheticRows 42

/-! ## Sidebar filter -/

/-- The boolean-mask filter of lines 125-132: date range (both endpoints
chosen) plus the three multiselect membership tests. -/
def applyFilters (d1 d2 : Nat) (cats segs sts : List String) (df : List Row) : List Row :=
  df.filter (fun r =>
    decide (d1 ≤ r.order_date ∧ r.order_date ≤ d2 ∧
      r.category ∈ cats ∧ r.segment ∈ segs ∧ r.state ∈ sts))

/-! ## KPI block (lines 147-151) -/

def total_sales (S : List Row) : ℚ := (S.map Row.sales).sum

def total_profit (S : List Row) : ℚ := (S.map Row.profit).sum

def total_orders (S : List Row) : Nat := S.length

/-- Line 150: `profit_margin = 0` unless `total_sales > 0`, in which case it
is `total_profit / total_sales * 100`. -/
def profit_margin (S : List Row) : ℚ :=
  if 0 < total_sales S then total_profit S / total_sales S * 100 else 0

/-- Line 151: `avg_order_value = 0` unless `total_orders > 0`, in which case
it is `total_sales / total_orders`. -/
def avg_order_value (S : List Row) : ℚ :=
  if 0 < total_orders S then total_sales S / (total_orders S : ℚ) else 0

/-! ## groupby machinery

pandas `df.groupby(k).agg(...)` (with the default `sort=True`) lists the
distinct values of the key column in ascending order and aggregates the
rows of each fiber. -/

/-- One-metric aggregate row (the shape of a groupby over one column with a
single summed metric). -/
structure Agg1 (K : Type) where
  key : K
  value : ℚ
deriving DecidableEq

/-- Sales+profit aggregate row. -/
structure Agg2 (K : Type) where
  key : K
  sales : ℚ
  profit : ℚ
deriving DecidableEq

/-- Sales+profit+count aggregate row (count of the non-null Order_Date
column, i.e. the number of rows of the fiber). -/
structure Agg3 (K : Type) where
  key : K
  sales : ℚ
  profit : ℚ
  orders : Nat
deriving DecidableEq

/-- The rows of `S` whose key is `k`. -/
def fiber {K : Type} [DecidableEq K] (key : Row → K) (S : List Row) (k : K) : List Row :=
  S.filter (fun r => decide (key r = k))

/-- The distinct keys of `S`, in ascending order. -/
def groupKeys {K : Type} [DecidableEq K] (le : K → K → Prop) [DecidableRel le]
    (key : Row → K) (S : List Row) : List K :=
  List.insertionSort le ((S.map key).dedup)

def sumBy (f : Row → ℚ) (rs : List Row) : ℚ := (rs.map f).sum

def groupBy1 {K : Type} [DecidableEq K] (le : K → K → Prop) [DecidableRel le]
    (key : Row → K) (f : Row → ℚ) (S : List Row) : List (Agg1 K) :=
  (groupKeys le key S).map (fun k => ⟨k, sumBy f (fiber key S k)⟩)

def groupBy2 {K : Type} [DecidableEq K] (le : K → K → Prop) [DecidableRel le]
    (key : Row → K) (S : List Row) : List (Agg2 K) :=
  (groupKeys le key S).map (fun k =>
    ⟨k, sumBy Row.sales (fiber key S k), sumBy Row.profit (fiber key S k)⟩)

def groupBy3 {K : Type} [DecidableEq K] (le : K → K → Prop) [DecidableRel le]
    (key : Row → K) (S : List Row) : List (Agg3 K) :=
  (groupKeys le key S).map (fun k =>
    ⟨k, sumBy Row.sales (fiber key S k), sumBy Row.profit (fiber key S k),
      (fiber key S k).length⟩)

/-- Model of sort_values with ascending set to False on a rational column. -/
def sortByDesc {α : Type} (f : α → ℚ) (l : List α) : List α :=
  List.insertionSort (fun a b => f b ≤ f a) l

/-- Model of sort_values with ascending set to False on a count column. -/
def sortByDescNat {α : Type} (f : α → Nat) (l : List α) : List α :=
  List.insertionSort (fun a b => f b ≤ f a) l

/-! ## The report aggregates -/

/-- Lines 231-237: `category_sales`, groupby `Category`, sum `Sales` and
`Profit`, count rows, sorted by `Sales` descending. -/
def category_sales (S : List Row) : List (Agg3 String) :=
  sortByDesc Agg3.sales (groupBy3 (fun a b => a ≤ b) Row.category S)

/-- Lines 283-286: `segment_sales`, groupby `Segment`, sum `Sales` and
`Profit`; no row count is computed and no sort is applied after the
groupby. -/
def segment_sales (S : List Row) : List (Agg2 String) :=
  groupBy2 (fun a b => a ≤ b) Row.segment S

/-- The monthly period of a date (pandas to_period with monthly frequency):
the key of the monthly grouping, encoded as
`year * 100 + month` (injective on the reachable dates since
`1 ≤ month ≤ 12`). -/
def periodM (d : Nat) : Nat := yearOfDay d * 100 + monthOfDay d

/-- Lines 314-317: `monthly_sales`, groupby the month period, sum `Sales`
and `Profit`. -/
def monthly_sales (S : List Row) : List (Agg2 Nat) :=
  groupBy2 (fun a b => a ≤ b) (fun r => periodM r.order_date) S

/-- Lines 343-348: `yearly_sales`, groupby `Year`, sum `Sales` and
`Profit`, count rows. -/
def yearly_sales (S : List Row) : List (Agg3 Nat) :=
  groupBy3 (fun a b => a ≤ b) Row.year S

/-- Lines 371-372: `state_sales`, groupby `State`, sum `Sales`, sort by
`Sales` descending, `head(10)`. -/
def state_sales (S : List Row) : List (Agg1 String) :=
  (sortByDesc Agg1.value (groupBy1 (fun a b => a ≤ b) Row.state Row.sales S)).take 10

/-- Lines 388-389: `city_profit`, groupby `City`, sum `Profit`, sort by
`Profit` descending, `head(10)`. -/
def city_profit (S : List Row) : List (Agg1 String) :=
  (sortByDesc Agg1.value (groupBy1 (fun a b => a ≤ b) Row.city Row.profit S)).take 10

/-- Lines 414-418: `subcat_sales`, groupby `Sub_Category`, sum `Sales` and
`Profit`, sort by `Sales` descending, `head(10)`. -/
def subcat_sales (S : List Row) : List (Agg2 String) :=
  (sortByDesc Agg2.sales (groupBy2 (fun a b => a ≤ b) Row.sub_category S)).take 10

/-- Lines 454-459: `discount_analysis`, groupby `Discount`, sum `Sales` and
`Profit`, count rows.  (Line 460 then reformats the key column as a percent
string for display only.) -/
def discount_analysis (S : List Row) : List (Agg3 ℚ) :=
  groupBy3 (fun a b => a ≤ b) Row.discount S

/-- Lines 495-501: `shipping`, groupby `Ship_Mode`, sum `Sales` and
`Profit`, count rows, sorted by `Orders` descending. -/
def shipping (S : List Row) : List (Agg3 String) :=
  sortByDescNat Agg3.orders (groupBy3 (fun a b => a ≤ b) Row.ship_mode S)

/-! ## Division-by-zero instrumentation

To settle the safety claim, the margin/average divisions are re-expressed
with a division operator that reports a zero denominator instead of using
the (total) field division. -/

/-- Rational division that signals a zero denominator. -/
def divQ (a b : ℚ) : Option ℚ := if b = 0 then none else some (a / b)

/-- Line 150 with the division instrumented: the guard `total_sales > 0`
decides whether the division is performed at all. -/
def kpiProfitMarginChecked (S : List Row) : Option ℚ :=
  if 0 < total_sales S then (divQ (total_profit S) (total_sales S)).map (fun q => q * 100)
  else some 0

/-- Line 151 with the division instrumented. -/
def kpiAvgOrderChecked (S : List Row) : Option ℚ :=
  if 0 < total_orders S then divQ (total_sales S) ((total_orders S : ℚ)) else some 0

/-- Lines 266/433/461: `(Profit / Sales * 100).round(2)` on an aggregate
row, with the division instrumented. -/
def marginChecked (sales profit : ℚ) : Option ℚ :=
  (divQ profit sales).map (fun q => roundTo2 (q * 100))

/-! ## CSV export (lines 536-542) -/

/-- The column names of the in-memory table, in order. -/
def tableColumns : List String :=
  ["Order_Date", "Category", "Sub_Category", "Segment", "State", "City", "Sales",
   "Quantity", "Discount", "Profit", "Ship_Mode", "Year", "Month", "Profit_Margin"]

/-- One CSV data line of `to_csv(index=False)`: the fields of a row, in
column order, joined by commas. -/
def renderRow (r : Row) : String :=
  String.intercalate ","
    [toString r.order_date, r.category, r.sub_category, r.segment, r.state, r.city,
     toString r.sales, toString r.quantity, toString r.discount, toString r.profit,
     r.ship_mode, toString r.year, toString r.month, toString r.profit_margin]

/-- The lines of the exported CSV: a header naming every column, then one
line per filtered row. -/
def csvLines (S : List Row) : List String :=
  String.intercalate "," tableColumns :: S.map renderRow

/-- Model of to_csv without the index column. -/
def to_csv (S : List Row) : String :=
  String.intercalate "\x0A" (csvLines S) ++ "\x0A"

/-- Model of the encode step: the exported artifact is the UTF-8 byte
encoding of the CSV text. -/
def csvBytes (S : List Row) : ByteArray :=
  (to_csv S).toUTF8

/-! ## Concrete tables used when exhibiting behaviour on explicit inputs -/

/-- A one-row table (fields: day 0, Furniture/Chairs, Consumer, Texas,
Houston, sales 100, quantity 1, discount 0, profit 20, First Class). -/
def oneRowTable : List Row :=
  [⟨0, "Furniture", "Chairs", "Consumer", "Texas", "Houston", 100, 1, 0, 20,
    "First Class", 2014, 1, 20⟩]

/-- A three-row subset of the generated table: row 13 is a Standard Class
order with 4940 in sales, rows 8 and 16 are Same Day orders with 347 and
45 in sales.  The Same Day group has more orders but far less sales than
the Standard Class group. -/
def shipCexRows : List Row := [mkRow 42 13, mkRow 42 8, mkRow 42 16]

/-! ## Generic facts about the groupby machinery -/

section GroupFacts

variable {K : Type} [DecidableEq K]

theorem fiber_nil (key : Row → K) (k : K) : fiber key [] k = [] := rfl

theorem fiber_cons (key : Row → K) (r : Row) (S : List Row) (k : K) :
    fiber key (r :: S) k =
      if key r = k then r :: fiber key S k else fiber key S k := by
  by_cases h : key r = k <;> simp [fiber, List.filter_cons, h]

theorem mem_fiber {key : Row → K} {S : List Row} {k : K} {r : Row} :
    r ∈ fiber key S k ↔ r ∈ S ∧ key r = k := by
  simp [fiber, List.mem_filter]

/-- A fiber at a key actually attained on `S` is nonempty. -/
theorem fiber_ne_nil {key : Row → K} {S : List Row} {k : K} (h : k ∈ S.map key) :
    fiber key S k ≠ [] := by
  rcases List.mem_map.mp h with ⟨r, hr, hk⟩
  intro hnil
  exact (List.not_mem_nil r) (hnil ▸ mem_fiber.mpr ⟨hr, hk⟩)

variable {M : Type} [AddCommMonoid M]

theorem sum_if_zero (k0 : K) (v : M) :
    ∀ ks : List K, k0 ∉ ks → (ks.map (fun k => if k0 = k then v else 0)).sum = 0 := by
  intro ks
  induction ks with
  | nil => intro _; simp
  | cons a t ih =>
    intro h
    have h1 : ¬ k0 = a := fun hc => h (hc ▸ List.mem_cons_self a t)
    have h2 : k0 ∉ t := fun hc => h (List.mem_cons_of_mem a hc)
    simp [h1, ih h2]

theorem sum_if_single (k0 : K) (v : M) :
    ∀ ks : List K, ks.Nodup → k0 ∈ ks →
      (ks.map (fun k => if k0 = k then v else 0)).sum = v := by
  intro ks
  induction ks with
  | nil => intro _ h; cases h
  | cons a t ih =>
    intro hnd hmem
    rcases List.mem_cons.mp hmem with h | h
    · subst h
      have hnotin : k0 ∉ t := (List.nodup_cons.mp hnd).1
      simp [sum_if_zero k0 v t hnotin]
    · have hne : ¬ k0 = a := by
        intro hc
        exact (List.nodup_cons.mp hnd).1 (hc ▸ h)
      simp [hne, ih (List.nodup_cons.mp hnd).2 h]

/-- Summing a function fiberwise over a complete, duplicate-free key list is
the same as summing it over the whole table: the groupby is a homomorphism
over the partition it induces. -/
theorem sum_fiberwise (key : Row → K) (f : Row → M) :
    ∀ (S : List Row) (ks : List K), ks.Nodup → (∀ r ∈ S, key r ∈ ks) →
      (ks.map (fun k => ((fiber key S k).map f).sum)).sum = (S.map f).sum := by
  intro S
  induction S with
  | nil => intro ks _ _; simp [fiber_nil]
  | cons r S ih =>
    intro ks hnd hcov
    have hkr : key r ∈ ks := hcov r (List.mem_cons_self r S)
    have hcov2 : ∀ x ∈ S, key x ∈ ks := fun x hx => hcov x (List.mem_cons_of_mem r hx)
    have hsplit : (ks.map (fun k => ((fiber key (r :: S) k).map f).sum))
        = ks.map (fun k => (if key r = k then f r else 0) + ((fiber key S k).map f).sum) := by
      apply List.map_congr_left
      intro k _
      rw [fiber_cons]
      by_cases h : key r = k <;> simp [h]
    rw [hsplit, List.sum_map_add, sum_if_single (key r) (f r) ks hnd hkr, ih ks hnd hcov2]
    simp

theorem mem_groupKeys {le : K → K → Prop} [DecidableRel le] {key : Row → K}
    {S : List Row} {k : K} : k ∈ groupKeys le key S ↔ k ∈ S.map key := by
  rw [groupKeys, (List.perm_insertionSort le _).mem_iff, List.mem_dedup]

theorem groupKeys_nodup (le : K → K → Prop) [DecidableRel le] (key : Row → K)
    (S : List Row) : (groupKeys le key S).Nodup :=
  (List.perm_insertionSort le _).nodup_iff.mpr (List.nodup_dedup _)

theorem groupKeys_cover (le : K → K → Prop) [DecidableRel le] (key : Row → K)
    (S : List Row) : ∀ r ∈ S, key r ∈ groupKeys le key S := by
  intro r hr
  exact mem_groupKeys.mpr (List.mem_map_of_mem key hr)

/-- The per-group sums of `groupBy3` add up to the whole-table sums, and the
per-group row counts add up to the number of rows. -/
theorem groupBy3_sum (le : K → K → Prop) [DecidableRel le] (key : Row → K)
    (S : List Row) :
    ((groupBy3 le key S).map Agg3.sales).sum = total_sales S ∧
    ((groupBy3 le key S).map Agg3.profit).sum = total_profit S ∧
    ((groupBy3 le key S).map Agg3.orders).sum = total_orders S := by
  refine ⟨?_, ?_, ?_⟩
  · rw [groupBy3, List.map_map, total_sales]
    exact sum_fiberwise key Row.sales S _ (groupKeys_nodup le key S) (groupKeys_cover le key S)
  · rw [groupBy3, List.map_map, total_profit]
    exact sum_fiberwise key Row.profit S _ (groupKeys_nodup le key S) (groupKeys_cover le key S)
  · rw [groupBy3, List.map_map, total_orders]
    have h := sum_fiberwise key (fun _ => (1 : ℕ)) S _
      (groupKeys_nodup le key S) (groupKeys_cover le key S)
    simpa using h

theorem groupBy2_sum (le : K → K → Prop) [DecidableRel le] (key : Row → K)
    (S : List Row) :
    ((groupBy2 le key S).map Agg2.sales).sum = total_sales S ∧
    ((groupBy2 le key S).map Agg2.profit).sum = total_profit S := by
  constructor
  · rw [groupBy2, List.map_map, total_sales]
    exact sum_fiberwise key Row.sales S _ (groupKeys_nodup le key S) (groupKeys_cover le key S)
  · rw [groupBy2, List.map_map, total_profit]
    exact sum_fiberwise key Row.profit S _ (groupKeys_nodup le key S) (groupKeys_cover le key S)

theorem groupBy1_sum (le : K → K → Prop) [DecidableRel le] (key : Row → K)
    (f : Row → ℚ) (S : List Row) :
    ((groupBy1 le key f S).map Agg1.value).sum = (S.map f).sum := by
  rw [groupBy1, List.map_map]
  exact sum_fiberwise key f S _ (groupKeys_nodup le key S) (groupKeys_cover le key S)

end GroupFacts

/-! ## Sorting facts -/

section SortFacts

variable {α : Type}

theorem sortByDesc_sorted (f : α → ℚ) (l : List α) :
    List.Sorted (fun a b => f b ≤ f a) (sortByDesc f l) := by
  haveI : IsTotal α (fun a b => f b ≤ f a) := ⟨fun a b => le_total (f b) (f a)⟩
  haveI : IsTrans α (fun a b => f b ≤ f a) := ⟨fun a b c h1 h2 => le_trans h2 h1⟩
  exact List.sorted_insertionSort _ l

theorem sortByDescNat_sorted (f : α → Nat) (l : List α) :
    List.Sorted (fun a b => f b ≤ f a) (sortByDescNat f l) := by
  haveI : IsTotal α (fun a b => f b ≤ f a) := ⟨fun a b => le_total (f b) (f a)⟩
  haveI : IsTrans α (fun a b => f b ≤ f a) := ⟨fun a b c h1 h2 => le_trans h2 h1⟩
  exact List.sorted_insertionSort _ l

theorem sortByDesc_perm (f : α → ℚ) (l : List α) : List.Perm (sortByDesc f l) l :=
  List.perm_insertionSort _ l

theorem sortByDescNat_perm (f : α → Nat) (l : List α) : List.Perm (sortByDescNat f l) l :=
  List.perm_insertionSort _ l

end SortFacts

/-! ## Shapes of the aggregate rows -/

section AggFacts

variable {K : Type} [DecidableEq K] {le : K → K → Prop} [DecidableRel le]

theorem mem_groupBy3 {key : Row → K} {S : List Row} {g : Agg3 K}
    (hg : g ∈ groupBy3 le key S) :
    g.sales = sumBy Row.sales (fiber key S g.key) ∧
    g.profit = sumBy Row.profit (fiber key S g.key) ∧
    g.orders = (fiber key S g.key).length ∧ g.key ∈ S.map key := by
  rcases List.mem_map.mp hg with ⟨k, hk, hgk⟩
  subst hgk
  exact ⟨rfl, rfl, rfl, mem_groupKeys.mp hk⟩

theorem mem_groupBy2 {key : Row → K} {S : List Row} {g : Agg2 K}
    (hg : g ∈ groupBy2 le key S) :
    g.sales = sumBy Row.sales (fiber key S g.key) ∧
    g.profit = sumBy Row.profit (fiber key S g.key) ∧ g.key ∈ S.map key := by
  rcases List.mem_map.mp hg with ⟨k, hk, hgk⟩
  subst hgk
  exact ⟨rfl, rfl, mem_groupKeys.mp hk⟩

theorem mem_groupBy1 {key : Row → K} {f : Row → ℚ} {S : List Row} {g : Agg1 K}
    (hg : g ∈ groupBy1 le key f S) :
    g.value = sumBy f (fiber key S g.key) ∧ g.key ∈ S.map key := by
  rcases List.mem_map.mp hg with ⟨k, hk, hgk⟩
  subst hgk
  exact ⟨rfl, mem_groupKeys.mp hk⟩

theorem groupBy3_keys {key : Row → K} {S : List Row} :
    (groupBy3 le key S).map Agg3.key = groupKeys le key S := by
  rw [groupBy3, List.map_map]
  exact List.map_id _

theorem groupBy2_keys {key : Row → K} {S : List Row} :
    (groupBy2 le key S).map Agg2.key = groupKeys le key S := by
  rw [groupBy2, List.map_map]
  exact List.map_id _

end AggFacts

/-! ## Structure of the generated table -/

theorem load_data_def (f : String) : load_data f = syntheticRows 42 := rfl

theorem mem_load_data {f : String} {r : Row} :
    r ∈ load_data f ↔ ∃ i, i < 10000 ∧ r = mkRow 42 i := by
  constructor
  · intro h
    rcases List.mem_map.mp h with ⟨i, hi, hr⟩
    exact ⟨i, List.mem_range.mp hi, hr.symm⟩
  · rintro ⟨i, hi, rfl⟩
    exact List.mem_map.mpr ⟨i, List.mem_range.mpr hi, rfl⟩

theorem getD_mem_of_lt {α : Type} (l : List α) (n : Nat) (d : α) (h : n < l.length) :
    l.getD n d ∈ l := by
  rw [List.getD_eq_getElem l d h]
  exact List.getElem_mem h

theorem mkRow_sales_pos (seed i : Nat) : 0 < (mkRow seed i).sales := by
  show 0 < 10 + ((nprand seed (60000 + i) % 4990 : Nat) : ℚ)
  have h : (0:ℚ) ≤ ((nprand seed (60000 + i) % 4990 : Nat) : ℚ) := Nat.cast_nonneg _
  linarith

theorem mkRow_category_mem (seed i : Nat) : (mkRow seed i).category ∈ catOptions := by
  have h : (mkRow seed i).category = catOptions.getD (nprand seed (10000 + i) % 3) "" := by
    simp [mkRow]
  rw [h]
  exact getD_mem_of_lt _ _ _ (Nat.mod_lt _ (by norm_num))

theorem mkRow_segment_mem (seed i : Nat) : (mkRow seed i).segment ∈ segOptions := by
  have h : (mkRow seed i).segment = segOptions.getD (nprand seed (30000 + i) % 3) "" := by
    simp [mkRow]
  rw [h]
  exact getD_mem_of_lt _ _ _ (Nat.mod_lt _ (by norm_num))

theorem mkRow_state_mem (seed i : Nat) : (mkRow seed i).state ∈ stateOptions := by
  have h : (mkRow seed i).state = stateOptions.getD (nprand seed (40000 + i) % 5) "" := by
    simp [mkRow]
  rw [h]
  exact getD_mem_of_lt _ _ _ (Nat.mod_lt _ (by norm_num))

theorem mkRow_city_mem (seed i : Nat) : (mkRow seed i).city ∈ cityOptions := by
  have h : (mkRow seed i).city = cityOptions.getD (nprand seed (50000 + i) % 5) "" := by
    simp [mkRow]
  rw [h]
  exact getD_mem_of_lt _ _ _ (Nat.mod_lt _ (by norm_num))

theorem mkRow_date_le (seed i : Nat) : (mkRow seed i).order_date ≤ 1460 := by
  show nprand seed i % numDates ≤ 1460
  have h : nprand seed i % numDates < numDates := Nat.mod_lt _ (by norm_num [numDates])
  have h2 : numDates = 1461 := rfl
  omega

/-- Every row of the generated table has a strictly positive sales amount
(the model of `np.random.uniform(10, 5000)`). -/
theorem load_data_sales_pos {f : String} {r : Row} (h : r ∈ load_data f) :
    0 < r.sales := by
  rcases mem_load_data.mp h with ⟨i, _, rfl⟩
  exact mkRow_sales_pos 42 i

/-- On a table whose rows all have positive sales, the sales total is
positive as soon as the table is nonempty. -/
theorem total_sales_pos {S : List Row} (hpos : ∀ r ∈ S, 0 < r.sales)
    (hne : S ≠ []) : 0 < total_sales S := by
  apply List.sum_pos
  · intro x hx
    rcases List.mem_map.mp hx with ⟨r, hr, rfl⟩
    exact hpos r hr
  · simpa using hne

/-- A margin computed on a nonzero sales denominator never divides by zero. -/
theorem marginChecked_isSome {s p : ℚ} (h : s ≠ 0) :
    (marginChecked s p).isSome = true := by
  simp [marginChecked, divQ, h]

/-- Every group of a grouped table with positive sales has a positive
sales sum. -/
theorem fiber_sales_pos {K : Type} [DecidableEq K] {key : Row → K} {S : List Row}
    {k : K} (hpos : ∀ r ∈ S, 0 < r.sales) (hk : k ∈ S.map key) :
    0 < sumBy Row.sales (fiber key S k) := by
  have h1 : ∀ r ∈ fiber key S k, 0 < r.sales := fun r hr => hpos r (mem_fiber.mp hr).1
  exact total_sales_pos h1 (fiber_ne_nil hk)

/-! ## The claims -/

/-- C1: for every filtered subset `S` of the table, the KPI computation
returns `total_sales` = the sum of the `Sales` column over `S`,
`total_profit` = the sum of the `Profit` column over `S`, `total_orders` =
the number of rows of `S`, `profit_margin` = 0 when `total_sales = 0` and
otherwise `100 * total_profit / total_sales`, and `avg_order_value` = 0
when `total_orders = 0` and otherwise `total_sales / total_orders`.
(The code guards with `total_sales > 0` and `total_orders > 0`; on subsets
of the table, where every sales amount is positive, the totals are zero
exactly when the subset is empty, so the two guards coincide with the
stated zero tests.) -/
theorem C1_kpi_formulas (f : String) (S : List Row) (hsub : S ⊆ load_data f) :
    total_sales S = (S.map Row.sales).sum ∧
    total_profit S = (S.map Row.profit).sum ∧
    total_orders S = S.length ∧
    profit_margin S = (if total_sales S = 0 then 0 else 100 * total_profit S / total_sales S) ∧
    avg_order_value S =
      (if total_orders S = 0 then 0 else total_sales S / (total_orders S : ℚ)) := by
  have hpos : ∀ r ∈ S, 0 < r.sales := fun r hr => load_data_sales_pos (hsub hr)
  refine ⟨rfl, rfl, rfl, ?_, ?_⟩
  · rcases eq_or_ne S [] with h | h
    · subst h
      simp [profit_margin, total_sales, total_profit]
    · have hts : 0 < total_sales S := total_sales_pos hpos h
      rw [profit_margin, if_pos hts, if_neg (ne_of_gt hts)]
      ring
  · rcases eq_or_ne S [] with h | h
    · subst h
      simp [avg_order_value, total_orders]
    · have hto : 0 < total_orders S := List.length_pos.mpr h
      rw [avg_order_value, if_pos hto, if_neg (Nat.pos_iff_ne_zero.mp hto)]

/-- Witness for C1 at the two-row prefix of the generated table. -/
theorem C1_kpi_formulas_witness :
    total_sales ((load_data "").take 2) = (((load_data "").take 2).map Row.sales).sum ∧
    total_profit ((load_data "").take 2) = (((load_data "").take 2).map Row.profit).sum ∧
    total_orders ((load_data "").take 2) = ((load_data "").take 2).length ∧
    profit_margin ((load_data "").take 2) =
      (if total_sales ((load_data "").take 2) = 0 then 0
       else 100 * total_profit ((load_data "").take 2) / total_sales ((load_data "").take 2)) ∧
    avg_order_value ((load_data "").take 2) =
      (if total_orders ((load_data "").take 2) = 0 then 0
       else total_sales ((load_data "").take 2) / (total_orders ((load_data "").take 2) : ℚ)) :=
  C1_kpi_formulas "" ((load_data "").take 2) (List.take_subset 2 (load_data ""))

/-- C6: the exported CSV has one header line plus one line per filtered
row (so its row count is `|S|`), its header lists exactly the columns of
the in-memory table, its data lines are the rendered rows of `S` in order,
and the downloaded artifact is the UTF-8 encoding of that text. -/
theorem C6_csv_export (S : List Row) :
    (csvLines S).length = S.length + 1 ∧
    (csvLines S).head? = some (String.intercalate "," tableColumns) ∧
    (csvLines S).tail = S.map renderRow ∧
    csvBytes S = (to_csv S).toUTF8 := by
  refine ⟨?_, rfl, rfl, rfl⟩
  simp [csvLines]

/-- C7: the CSV-reading path of `load_data` is dead code.  The result of the function does not depend on the contents of the CSV file (so two runs, with
any file contents, produce the same table), and the result is always the
10,000-row synthetic table generated from the fixed seed 42. -/
theorem C7_csv_path_dead (f g : String) :
    load_data f = load_data g ∧
    load_data f = syntheticRows 42 ∧
    (load_data f).length = 10000 := by
  refine ⟨rfl, rfl, ?_⟩
  simp [load_data, syntheticRows]

/-- C9: on an empty filtered subset nothing fails and nothing is reported:
the KPIs are all 0 (both margin guards fall through to their 0 default
without dividing), and every groupby aggregate of the dashboard — the
category, segment, monthly, yearly, state, city, sub-category, discount
and shipping breakdowns — is the empty table. -/
theorem C9_empty_filter :
    total_sales [] = 0 ∧ total_profit [] = 0 ∧ total_orders [] = 0 ∧
    profit_margin [] = 0 ∧ avg_order_value [] = 0 ∧
    kpiProfitMarginChecked [] = some 0 ∧ kpiAvgOrderChecked [] = some 0 ∧
    category_sales [] = [] ∧ segment_sales [] = [] ∧ monthly_sales [] = [] ∧
    yearly_sales [] = [] ∧
    state_sales [] = [] ∧ city_profit [] = [] ∧ subcat_sales [] = [] ∧
    discount_analysis [] = [] ∧ shipping [] = [] := by
  refine ⟨rfl, rfl, rfl, ?_, ?_, ?_, ?_, rfl, rfl, rfl, rfl, rfl, rfl, rfl, rfl, rfl⟩
  · simp [profit_margin, total_sales]
  · simp [avg_order_value, total_orders]
  · simp [kpiProfitMarginChecked, total_sales]
  · simp [kpiAvgOrderChecked, total_orders]

/-- C10: every groupby-sum aggregate is a homomorphism over the partition
of the filtered subset `S` induced by its grouping column: the per-group
sales sums, profit sums and (where computed) row counts of the category,
segment, monthly, discount and shipping-mode breakdowns add up to
`total_sales S`, `total_profit S` and `|S|` respectively — for every `S`,
not only the unfiltered table. -/
theorem C10_groupby_homomorphism (S : List Row) :
    ((category_sales S).map Agg3.sales).sum = total_sales S ∧
    ((category_sales S).map Agg3.profit).sum = total_profit S ∧
    ((category_sales S).map Agg3.orders).sum = total_orders S ∧
    ((segment_sales S).map Agg2.sales).sum = total_sales S ∧
    ((segment_sales S).map Agg2.profit).sum = total_profit S ∧
    ((monthly_sales S).map Agg2.sales).sum = total_sales S ∧
    ((monthly_sales S).map Agg2.profit).sum = total_profit S ∧
    ((discount_analysis S).map Agg3.sales).sum = total_sales S ∧
    ((discount_analysis S).map Agg3.profit).sum = total_profit S ∧
    ((discount_analysis S).map Agg3.orders).sum = total_orders S ∧
    ((shipping S).map Agg3.sales).sum = total_sales S ∧
    ((shipping S).map Agg3.profit).sum = total_profit S ∧
    ((shipping S).map Agg3.orders).sum = total_orders S := by
  have hcat := groupBy3_sum (K := String) (fun a b => a ≤ b) Row.category S
  have hshipgrp := groupBy3_sum (K := String) (fun a b => a ≤ b) Row.ship_mode S
  unfold category_sales shipping
  refine ⟨?_, ?_, ?_, (groupBy2_sum _ _ _).1, (groupBy2_sum _ _ _).2,
    (groupBy2_sum _ _ _).1, (groupBy2_sum _ _ _).2,
    (groupBy3_sum _ _ _).1, (groupBy3_sum _ _ _).2.1, (groupBy3_sum _ _ _).2.2,
    ?_, ?_, ?_⟩
  · rw [((sortByDesc_perm Agg3.sales _).map Agg3.sales).sum_eq]
    exact hcat.1
  · rw [((sortByDesc_perm Agg3.sales _).map Agg3.profit).sum_eq]
    exact hcat.2.1
  · rw [((sortByDesc_perm Agg3.sales _).map Agg3.orders).sum_eq]
    exact hcat.2.2
  · rw [((sortByDescNat_perm Agg3.orders _).map Agg3.sales).sum_eq]
    exact hshipgrp.1
  · rw [((sortByDescNat_perm Agg3.orders _).map Agg3.profit).sum_eq]
    exact hshipgrp.2.1
  · rw [((sortByDescNat_perm Agg3.orders _).map Agg3.orders).sum_eq]
    exact hshipgrp.2.2

/-- C2: on every filtered subset of the table, no margin or average
computation divides by zero.  The two KPI divisions are guarded by
`total_sales > 0` / `total_orders > 0` and default to 0; the per-category,
per-sub-category and per-discount margins are unguarded in the code, but
their denominators are per-group sales sums of nonempty groups of rows
with positive sales, so a zero denominator cannot arise there. -/
theorem C2_no_division_by_zero (f : String) (S : List Row) (hsub : S ⊆ load_data f) :
    (kpiProfitMarginChecked S).isSome = true ∧
    (kpiAvgOrderChecked S).isSome = true ∧
    (∀ g ∈ category_sales S, (marginChecked g.sales g.profit).isSome = true) ∧
    (∀ g ∈ subcat_sales S, (marginChecked g.sales g.profit).isSome = true) ∧
    (∀ g ∈ discount_analysis S, (marginChecked g.sales g.profit).isSome = true) := by
  have hpos : ∀ r ∈ S, 0 < r.sales := fun r hr => load_data_sales_pos (hsub hr)
  refine ⟨?_, ?_, ?_, ?_, ?_⟩
  · unfold kpiProfitMarginChecked
    split
    · rename_i h
      simp [divQ, ne_of_gt h]
    · rfl
  · unfold kpiAvgOrderChecked
    split
    · rename_i h
      have h2 : ((total_orders S : ℚ)) ≠ 0 := by
        exact_mod_cast Nat.pos_iff_ne_zero.mp h
      simp [divQ, h2]
    · rfl
  · intro g hg
    have hg2 : g ∈ groupBy3 (fun a b => a ≤ b) Row.category S :=
      (sortByDesc_perm Agg3.sales _).mem_iff.mp hg
    obtain ⟨hs, _, _, hk⟩ := mem_groupBy3 hg2
    exact marginChecked_isSome (hs ▸ ne_of_gt (fiber_sales_pos hpos hk))
  · intro g hg
    have hg2 : g ∈ groupBy2 (fun a b => a ≤ b) Row.sub_category S :=
      (sortByDesc_perm Agg2.sales _).mem_iff.mp (List.take_subset 10 _ hg)
    obtain ⟨hs, _, hk⟩ := mem_groupBy2 hg2
    exact marginChecked_isSome (hs ▸ ne_of_gt (fiber_sales_pos hpos hk))
  · intro g hg
    obtain ⟨hs, _, _, hk⟩ := mem_groupBy3 hg
    exact marginChecked_isSome (hs ▸ ne_of_gt (fiber_sales_pos hpos hk))

/-- Witness for C2 at the two-row prefix of the generated table. -/
theorem C2_no_division_by_zero_witness :
    (kpiProfitMarginChecked ((load_data "").take 2)).isSome = true ∧
    (kpiAvgOrderChecked ((load_data "").take 2)).isSome = true ∧
    (∀ g ∈ category_sales ((load_data "").take 2),
      (marginChecked g.sales g.profit).isSome = true) ∧
    (∀ g ∈ subcat_sales ((load_data "").take 2),
      (marginChecked g.sales g.profit).isSome = true) ∧
    (∀ g ∈ discount_analysis ((load_data "").take 2),
      (marginChecked g.sales g.profit).isSome = true) :=
  C2_no_division_by_zero "" ((load_data "").take 2) (List.take_subset 2 (load_data ""))

/-- C8 as the code actually behaves: for every row of the generated table,
`Year` is the year of the order date, `Month` is its month, and
`Profit_Margin` is profit divided by sales times 100 **rounded to two
decimal places** (line 71 applies `.round(2)`). -/
theorem C8_derived_fields (f : String) :
    ∀ r ∈ load_data f,
      r.year = yearOfDay r.order_date ∧
      r.month = monthOfDay r.order_date ∧
      r.profit_margin = roundTo2 (r.profit / r.sales * 100) := by
  intro r hr
  rcases mem_load_data.mp hr with ⟨i, _, rfl⟩
  refine ⟨?_, ?_, ?_⟩ <;> simp [mkRow]

/-- Witness for C8 at row 0 of the generated table. -/
theorem C8_derived_fields_witness :
    (mkRow 42 0).year = yearOfDay (mkRow 42 0).order_date ∧
    (mkRow 42 0).month = monthOfDay (mkRow 42 0).order_date ∧
    (mkRow 42 0).profit_margin = roundTo2 ((mkRow 42 0).profit / (mkRow 42 0).sales * 100) :=
  C8_derived_fields "" (mkRow 42 0) (mem_load_data.mpr ⟨0, by norm_num, rfl⟩)

/-- Counterexample to C8 as stated: at row 0 of the generated table the
stored profit margin is the rounded value −4.47, while profit/sales×100 is
−2900/649 = −4.4684..., so the field does not equal profit/sales×100
exactly — the claim omits the two-decimal rounding of line 71. -/
theorem C8_derived_fields_cex :
    mkRow 42 0 ∈ load_data "" ∧
    (mkRow 42 0).profit_margin ≠ (mkRow 42 0).profit / (mkRow 42 0).sales * 100 := by
  constructor
  · exact mem_load_data.mpr ⟨0, by norm_num, rfl⟩
  · norm_num [mkRow, nprand, roundTo2, numDates]

/-- C3 as the code actually behaves, for every filtered subset `S`: the
category breakdown groups `S` by `Category`, sums sales and profit and
counts rows per group, and is sorted descending by summed sales; the
segment breakdown groups `S` by `Segment` and sums sales and profit per
group, but computes no row count and is left in ascending order of the
segment name rather than sorted by sales; the shipping-mode breakdown
groups `S` by `Ship_Mode`, sums sales and profit and counts rows per
group, and is sorted descending by the row count (`Orders`), not by
summed sales. -/
theorem C3_breakdowns_amended (S : List Row) :
    (List.Sorted (fun a b => Agg3.sales b ≤ Agg3.sales a) (category_sales S) ∧
     (∀ g ∈ category_sales S,
        g.sales = sumBy Row.sales (fiber Row.category S g.key) ∧
        g.profit = sumBy Row.profit (fiber Row.category S g.key) ∧
        g.orders = (fiber Row.category S g.key).length) ∧
     List.Perm ((category_sales S).map Agg3.key) ((S.map Row.category).dedup)) ∧
    ((∀ g ∈ segment_sales S,
        g.sales = sumBy Row.sales (fiber Row.segment S g.key) ∧
        g.profit = sumBy Row.profit (fiber Row.segment S g.key)) ∧
     List.Sorted (fun a b : Agg2 String => a.key ≤ b.key) (segment_sales S) ∧
     List.Perm ((segment_sales S).map Agg2.key) ((S.map Row.segment).dedup)) ∧
    (List.Sorted (fun a b => Agg3.orders b ≤ Agg3.orders a) (shipping S) ∧
     (∀ g ∈ shipping S,
        g.sales = sumBy Row.sales (fiber Row.ship_mode S g.key) ∧
        g.profit = sumBy Row.profit (fiber Row.ship_mode S g.key) ∧
        g.orders = (fiber Row.ship_mode S g.key).length) ∧
     List.Perm ((shipping S).map Agg3.key) ((S.map Row.ship_mode).dedup)) := by
  refine ⟨⟨sortByDesc_sorted _ _, ?_, ?_⟩, ⟨?_, ?_, ?_⟩, ⟨sortByDescNat_sorted _ _, ?_, ?_⟩⟩
  · intro g hg
    have hg2 : g ∈ groupBy3 (fun a b => a ≤ b) Row.category S :=
      (sortByDesc_perm Agg3.sales _).mem_iff.mp hg
    obtain ⟨h1, h2, h3, _⟩ := mem_groupBy3 hg2
    exact ⟨h1, h2, h3⟩
  · have p1 := (sortByDesc_perm Agg3.sales
      (groupBy3 (fun a b => a ≤ b) Row.category S)).map Agg3.key
    rw [groupBy3_keys] at p1
    exact p1.trans (List.perm_insertionSort _ _)
  · intro g hg
    obtain ⟨h1, h2, _⟩ := mem_groupBy2 hg
    exact ⟨h1, h2⟩
  · show List.Pairwise (fun a b : Agg2 String => a.key ≤ b.key) (segment_sales S)
    unfold segment_sales groupBy2 groupKeys
    rw [List.pairwise_map]
    have h := List.sorted_insertionSort (fun a b : String => a ≤ b)
      ((S.map Row.segment).dedup)
    exact h
  · have p1 : (segment_sales S).map Agg2.key = groupKeys (fun a b => a ≤ b) Row.segment S :=
      groupBy2_keys
    rw [p1]
    exact List.perm_insertionSort _ _
  · intro g hg
    have hg2 : g ∈ groupBy3 (fun a b => a ≤ b) Row.ship_mode S :=
      (sortByDescNat_perm Agg3.orders _).mem_iff.mp hg
    obtain ⟨h1, h2, h3, _⟩ := mem_groupBy3 hg2
    exact ⟨h1, h2, h3⟩
  · have p1 := (sortByDescNat_perm Agg3.orders
      (groupBy3 (fun a b => a ≤ b) Row.ship_mode S)).map Agg3.key
    rw [groupBy3_keys] at p1
    exact p1.trans (List.perm_insertionSort _ _)

/-- Witness for C3 (amended) at the one-row table: the category breakdown
of a single Furniture order with sales 100, profit 20 is sorted and its
unique group carries the sums of that row. -/
theorem C3_breakdowns_amended_witness :
    List.Sorted (fun a b => Agg3.sales b ≤ Agg3.sales a) (category_sales oneRowTable) ∧
    (Agg3.mk "Furniture" 100 20 1).sales
      = sumBy Row.sales (fiber Row.category oneRowTable (Agg3.mk "Furniture" 100 20 1).key) := by
  refine ⟨(C3_breakdowns_amended oneRowTable).1.1,
    ((C3_breakdowns_amended oneRowTable).1.2.1 (Agg3.mk "Furniture" 100 20 1) ?_).1⟩
  show Agg3.mk "Furniture" 100 20 1 ∈ category_sales oneRowTable
  simp +decide [category_sales, oneRowTable, sortByDesc, groupBy3, groupKeys, fiber, sumBy,
    List.insertionSort, List.orderedInsert, List.dedup, List.pwFilter, List.filter]

/-- Counterexample to C3 as stated: on the subset of the generated table
made of rows 13, 8 and 16 (one Standard Class order with 4940 in sales,
two Same Day orders with 347 and 45), the shipping-mode breakdown sorts by
order count descending, so the Same Day group (392 in sales, 2 orders)
precedes the Standard Class group (4940 in sales, 1 order): the breakdown
is not sorted in descending order of summed sales. -/
theorem C3_breakdowns_cex :
    (∀ r ∈ shipCexRows, r ∈ load_data "") ∧
    ¬ List.Sorted (fun a b => Agg3.sales b ≤ Agg3.sales a) (shipping shipCexRows) := by
  constructor
  · intro r hr
    rcases List.mem_cons.mp hr with rfl | hr
    · exact mem_load_data.mpr ⟨13, by norm_num, rfl⟩
    rcases List.mem_cons.mp hr with rfl | hr
    · exact mem_load_data.mpr ⟨8, by norm_num, rfl⟩
    rcases List.mem_cons.mp hr with rfl | hr
    · exact mem_load_data.mpr ⟨16, by norm_num, rfl⟩
    · cases hr
  · have h : (shipping shipCexRows).map Agg3.sales = [392, 4940] := by
      norm_num [shipping, shipCexRows, mkRow, nprand, numDates, shipOptions, catOptions,
        subcatOptions, segOptions, stateOptions, cityOptions, discountOptions, roundTo2,
        sortByDescNat, groupBy3, groupKeys, fiber, sumBy,
        List.insertionSort, List.orderedInsert, List.dedup, List.pwFilter, List.filter]
      simp +decide
      norm_num
    intro hs
    rw [List.Sorted] at hs
    have h2 : List.Pairwise (fun a b : ℚ => b ≤ a) ((shipping shipCexRows).map Agg3.sales) :=
      List.Pairwise.map Agg3.sales (fun a b hab => hab) hs
    rw [h] at h2
    have h3 := List.rel_of_pairwise_cons h2 (List.mem_singleton.mpr rfl)
    norm_num at h3

/-- C4: for every filtered subset `S`, the two geographic top-10 lists
(states by summed sales, cities by summed profit) group `S` by state
resp. city, carry the per-group sum of the one metric, are sorted in
descending order of that metric, and contain at most 10 entries. -/
theorem C4_geo_top10 (S : List Row) :
    (state_sales S).length ≤ 10 ∧
    List.Sorted (fun a b => Agg1.value b ≤ Agg1.value a) (state_sales S) ∧
    (∀ g ∈ state_sales S, g.value = sumBy Row.sales (fiber Row.state S g.key)) ∧
    (city_profit S).length ≤ 10 ∧
    List.Sorted (fun a b => Agg1.value b ≤ Agg1.value a) (city_profit S) ∧
    (∀ g ∈ city_profit S, g.value = sumBy Row.profit (fiber Row.city S g.key)) := by
  refine ⟨List.length_take_le 10 _, ?_, ?_, List.length_take_le 10 _, ?_, ?_⟩
  · exact List.Pairwise.sublist (List.take_sublist 10 _) (sortByDesc_sorted Agg1.value _)
  · intro g hg
    have hg2 : g ∈ groupBy1 (fun a b => a ≤ b) Row.state Row.sales S :=
      (sortByDesc_perm Agg1.value _).mem_iff.mp (List.take_subset 10 _ hg)
    exact (mem_groupBy1 hg2).1
  · exact List.Pairwise.sublist (List.take_sublist 10 _) (sortByDesc_sorted Agg1.value _)
  · intro g hg
    have hg2 : g ∈ groupBy1 (fun a b => a ≤ b) Row.city Row.profit S :=
      (sortByDesc_perm Agg1.value _).mem_iff.mp (List.take_subset 10 _ hg)
    exact (mem_groupBy1 hg2).1

/-- Witness for C4 at the one-row table. -/
theorem C4_geo_top10_witness :
    (state_sales oneRowTable).length ≤ 10 ∧
    (Agg1.mk "Texas" 100).value
      = sumBy Row.sales (fiber Row.state oneRowTable (Agg1.mk "Texas" 100).key) := by
  refine ⟨(C4_geo_top10 oneRowTable).1,
    (C4_geo_top10 oneRowTable).2.2.1 (Agg1.mk "Texas" 100) ?_⟩
  show Agg1.mk "Texas" 100 ∈ state_sales oneRowTable
  simp +decide [state_sales, oneRowTable, sortByDesc, groupBy1, groupKeys, fiber, sumBy,
    List.insertionSort, List.orderedInsert, List.dedup, List.pwFilter, List.filter]

/-- C5: when the sidebar filter covers everything (the date range contains
every order date and every category, segment and state of the table is
selected), the filtered set is the whole table, and the per-group sales
sums of the category, segment and state aggregates — and the per-group
profit sums of the category and segment aggregates (the state aggregate
carries only sales) — add up to the unfiltered KPI grand totals.  The
state aggregate is truncated to 10 entries by the code, but the generated
table draws its states from a pool of 5, so nothing is cut off. -/
theorem C5_grand_totals (f : String) (d1 d2 : Nat) (cats segs sts : List String)
    (hcov : ∀ r ∈ load_data f, d1 ≤ r.order_date ∧ r.order_date ≤ d2 ∧
      r.category ∈ cats ∧ r.segment ∈ segs ∧ r.state ∈ sts) :
    applyFilters d1 d2 cats segs sts (load_data f) = load_data f ∧
    ((category_sales (load_data f)).map Agg3.sales).sum = total_sales (load_data f) ∧
    ((category_sales (load_data f)).map Agg3.profit).sum = total_profit (load_data f) ∧
    ((segment_sales (load_data f)).map Agg2.sales).sum = total_sales (load_data f) ∧
    ((segment_sales (load_data f)).map Agg2.profit).sum = total_profit (load_data f) ∧
    ((state_sales (load_data f)).map Agg1.value).sum = total_sales (load_data f) := by
  unfold category_sales state_sales
  refine ⟨?_, ?_, ?_, (groupBy2_sum _ _ _).1, (groupBy2_sum _ _ _).2, ?_⟩
  · unfold applyFilters
    apply List.filter_eq_self.mpr
    intro r hr
    exact decide_eq_true (hcov r hr)
  · rw [((sortByDesc_perm Agg3.sales _).map Agg3.sales).sum_eq]
    exact (groupBy3_sum _ _ _).1
  · rw [((sortByDesc_perm Agg3.sales _).map Agg3.profit).sum_eq]
    exact (groupBy3_sum _ _ _).2.1
  · have hsub : ((load_data f).map Row.state).dedup ⊆ stateOptions := by
      intro s hs
      rcases List.mem_map.mp (List.mem_dedup.mp hs) with ⟨r, hr, rfl⟩
      rcases mem_load_data.mp hr with ⟨i, _, rfl⟩
      exact mkRow_state_mem 42 i
    have hlen : (sortByDesc Agg1.value
        (groupBy1 (fun a b => a ≤ b) Row.state Row.sales (load_data f))).length ≤ 10 := by
      rw [sortByDesc, List.length_insertionSort, groupBy1, List.length_map,
        groupKeys, List.length_insertionSort]
      have h5 := ((List.nodup_dedup ((load_data f).map Row.state)).subperm hsub).length_le
      simp [stateOptions] at h5
      omega
    rw [List.take_of_length_le hlen,
      ((sortByDesc_perm Agg1.value _).map Agg1.value).sum_eq]
    exact groupBy1_sum _ _ _ _

/-- Witness for C5: the full date range 0–1460 with all category, segment
and state options selected covers the generated table. -/
theorem C5_grand_totals_witness :
    applyFilters 0 1460 catOptions segOptions stateOptions (load_data "") = load_data "" ∧
    ((category_sales (load_data "")).map Agg3.sales).sum = total_sales (load_data "") ∧
    ((category_sales (load_data "")).map Agg3.profit).sum = total_profit (load_data "") ∧
    ((segment_sales (load_data "")).map Agg2.sales).sum = total_sales (load_data "") ∧
    ((segment_sales (load_data "")).map Agg2.profit).sum = total_profit (load_data "") ∧
    ((state_sales (load_data "")).map Agg1.value).sum = total_sales (load_data "") := by
  apply C5_grand_totals "" 0 1460 catOptions segOptions stateOptions
  intro r hr
  rcases mem_load_data.mp hr with ⟨i, _, rfl⟩
  exact ⟨Nat.zero_le _, mkRow_date_le 42 i, mkRow_category_mem 42 i,
    mkRow_segment_mem 42 i, mkRow_state_mem 42 i⟩

end Superstore
